import Mathlib

/-!
Shallow embedding of two Vue single-file components of the openverse
frontend, `src/frontend/src/components/VButton.vue` and
`src/frontend/src/components/VSafetyWall/VSafetyWall.vue`, together with
theorems about their derived presentation state.

The components' computed values are pure functions of the props and of the
ambient pass-through attributes, so each `computed` becomes a Lean function
of those inputs.  JavaScript string/array library calls are translated by
small explicit helpers (`jsJoin` for `Array.prototype.join`, `jsStartsWith`
for `String.prototype.startsWith`).  Values of TypeScript type
`true | undefined` become `Option Bool`; an absent attribute is `none`.
Ambient attributes (`attrs`) are passed explicitly: `attrs.href` as an
`Option String` (`none` when the attribute is not supplied), and the
truthiness of `attrs["aria-pressed"]` / `attrs["aria-expanded"]` as `Bool`.
-/

namespace Openverse

/-- JavaScript `Array.prototype.join(sep)` on a list of strings: elements
concatenated in order with `sep` between consecutive elements, `""` on the
empty array. -/
def jsJoin (sep : String) : List String → String
  | [] => ""
  | [x] => x
  | x :: y :: xs => x ++ sep ++ jsJoin sep (y :: xs)

/-- JavaScript `String.prototype.startsWith(search)`: the character
sequence of `search` is an initial segment of the character sequence of
`s`. -/
def jsStartsWith (s search : String) : Bool :=
  search.data.isPrefixOf s.data

/-- The `ButtonForm` values the `as` prop of `VButton.vue` takes in the
code: the default `"button"`, the link alias `"VLink"`, the raw hyperlink
`"a"`, and the router link `"NuxtLink"` (the latter two appear in the
component's own `watch` and `typeAttribute` logic). -/
inductive ButtonForm where
  | button
  | VLink
  | a
  | NuxtLink
deriving DecidableEq

/-- The string rendered for a `ButtonForm` value, used when the form is
interpolated into the migration warning message. -/
def ButtonForm.name : ButtonForm → String
  | .button => "button"
  | .VLink => "VLink"
  | .a => "a"
  | .NuxtLink => "NuxtLink"

/-- JavaScript truthiness of a `boolean | undefined` value: truthy exactly
when it is `true`. -/
def truthyOptBool (b : Option Bool) : Bool :=
  b.getD false

/-- The `typeAttribute` computed of `VButton.vue`:
`["VLink", "a"].includes(props.as) ? undefined : props.type`. -/
def typeAttribute (asForm : ButtonForm) (type : String) : Option String :=
  if [ButtonForm.VLink, ButtonForm.a].contains asForm then none else some type

/-- The `connectionStyles` computed of `VButton.vue`:
`props.connections.map((connection) => "connection-" + connection).join(" ")`
(the source uses a template literal for the concatenation). -/
def connectionStyles (connections : List String) : String :=
  jsJoin " " (connections.map (fun connection => "connection-" ++ connection))

/-- The `isActive` computed of `VButton.vue`:
`props.pressed || attrs["aria-pressed"] || attrs["aria-expanded"]`, at the
level of truthiness.  `pressed` is the tri-state prop (default
`undefined`); the two attribute arguments are the truthiness of the
ambient attributes. -/
def isActive (pressed : Option Bool) (ariaPressedAttr ariaExpandedAttr : Bool) : Bool :=
  truthyOptBool pressed || ariaPressedAttr || ariaExpandedAttr

/-- The `variantClass` computed of `VButton.vue`: when `isActive` and the
variant is one of `["bordered-white", "bordered-tx", "transparent-dark"]`,
the variant with `"-pressed"` appended; otherwise the variant unchanged. -/
def variantClass (variant : String) (pressed : Option Bool)
    (ariaPressedAttr ariaExpandedAttr : Bool) : String :=
  if isActive pressed ariaPressedAttr ariaExpandedAttr
      && (["bordered-white", "bordered-tx", "transparent-dark"] : List String).contains variant then
    variant ++ "-pressed"
  else
    variant

/-- The `isPlainDangerous` computed of `VButton.vue`:
`props.variant === "plain--avoid"`. -/
def isPlainDangerous (variant : String) : Bool :=
  variant == "plain--avoid"

/-- The `isFocusSlimFilled` computed of `VButton.vue`:
`props.variant.startsWith("filled-")`. -/
def isFocusSlimFilled (variant : String) : Bool :=
  jsStartsWith variant "filled-"

/-- The `isFocusSlimTx` computed of `VButton.vue`:
`props.variant.startsWith("bordered-") ||
 props.variant.startsWith("transparent-") || props.variant === "plain"`. -/
def isFocusSlimTx (variant : String) : Bool :=
  jsStartsWith variant "bordered-" || jsStartsWith variant "transparent-"
    || variant == "plain"

/-- The `supportsDisabledAttribute` computed of `VButton.vue`:
`props.as !== "VLink"`. -/
def supportsDisabledAttribute (asForm : ButtonForm) : Bool :=
  asForm != ButtonForm.VLink

/-- The `ariaDisabled` computed of `VButton.vue`:
`(props.disabled && props.focusableWhenDisabled) || undefined`, of
TypeScript type `true | undefined`. -/
def ariaDisabled (disabled focusableWhenDisabled : Bool) : Option Bool :=
  if disabled && focusableWhenDisabled then some true else none

/-- The `disabledAttribute` computed of `VButton.vue`:
`trulyDisabled = props.disabled && !props.focusableWhenDisabled;
 (trulyDisabled && supportsDisabledAttribute) || undefined`. -/
def disabledAttribute (asForm : ButtonForm) (disabled focusableWhenDisabled : Bool) :
    Option Bool :=
  let trulyDisabled := disabled && !focusableWhenDisabled
  if trulyDisabled && supportsDisabledAttribute asForm then some true else none

/-- The message passed to `warn` in `VButton.vue`'s watch on `props.as`. -/
def warnMessage (asForm : ButtonForm) : String :=
  "Please use `VLink` with an `href` prop instead of " ++ asForm.name
    ++ " for the button component"

/-- One invocation of the watcher callback on `props.as` in `VButton.vue`:
`if (["a", "NuxtLink"].includes(as) && attrs.href !== "#" + skipToContentTargetId)`
then it calls `warn` once, else not.  The result is the list of warnings
emitted by this single invocation.  `skipToContentTargetId` (imported from
a constants module outside this excerpt) is a parameter; `href` is the
ambient `attrs.href`, `none` when absent (and `undefined !== string`
holds in JavaScript, matching `none != some s`). -/
def watchAsCallback (skipToContentTargetId : String) (asForm : ButtonForm)
    (href : Option String) : List String :=
  if [ButtonForm.a, ButtonForm.NuxtLink].contains asForm
      && href != some ("#" ++ skipToContentTargetId) then
    [warnMessage asForm]
  else
    []

/-- The watcher on `props.as` is registered with `immediate: true`: the
callback runs once at first render and once per change of `props.as`.  A
trace is the list of those invocations, each recording the value of
`props.as` and of `attrs.href` at that moment; the result is the
concatenation of the warnings the invocations emit. -/
def watchAsTrace (skipToContentTargetId : String)
    (invocations : List (ButtonForm × Option String)) : List String :=
  (invocations.map (fun p => watchAsCallback skipToContentTargetId p.1 p.2)).flatten

/-- The condition under which one watcher invocation warns, as a Boolean
predicate on an invocation record. -/
def watchWarnCond (skipToContentTargetId : String)
    (p : ButtonForm × Option String) : Bool :=
  [ButtonForm.a, ButtonForm.NuxtLink].contains p.1
    && p.2 != some ("#" ++ skipToContentTargetId)

/-- Payload of the analytics event sent by `VSafetyWall.vue`'s
`handleBack`. -/
structure CustomEventPayload where
  id : String
  sensitivities : String
deriving DecidableEq

/-- The observable effects the `VSafetyWall.vue` script can issue: an
analytics emission via `$sendCustomEvent`, or the `reveal` emit (which has
no payload). -/
inductive WallEffect where
  | sendCustomEvent (name : String) (payload : CustomEventPayload)
  | reveal
deriving DecidableEq

/-- Whether a wall effect is an analytics emission. -/
def WallEffect.isAnalytics : WallEffect → Bool
  | .sendCustomEvent _ _ => true
  | .reveal => false

/-- The `handleBack` handler of `VSafetyWall.vue`: it calls
`$sendCustomEvent("GO_BACK_FROM_SENSITIVE_RESULT",
 { id: props.id, sensitivities: props.sensitivity.join(",") })`
and nothing else.  The result is the list of effects of one invocation. -/
def handleBack (id : String) (sensitivity : List String) : List WallEffect :=
  [WallEffect.sendCustomEvent "GO_BACK_FROM_SENSITIVE_RESULT"
    { id := id, sensitivities := jsJoin "," sensitivity }]

/-- The `handleShow` handler of `VSafetyWall.vue`: it performs
`emit("reveal")` and nothing else. -/
def handleShow : List WallEffect :=
  [WallEffect.reveal]

/-- JavaScript `value || fallback` for a `string | undefined` value:
`undefined` and the empty string are falsy. -/
def jsOrDefault (value : Option String) (fallback : String) : String :=
  match value with
  | some s => if s == "" then fallback else s
  | none => fallback

/-- The `href` bound on the back button of `VSafetyWall.vue`'s template:
`backToSearchPath || "/"`, where `backToSearchPath` mirrors the search
store's recorded return-to-search path (`none` when none is recorded). -/
def backButtonHref (backToSearchPath : Option String) : String :=
  jsOrDefault backToSearchPath "/"

/-- The spec's description of the connection class derivation, written as
its own recursion: each connection flag `c` becomes the token
`"connection-" ++ c`, and the tokens are joined with single spaces in
input order. -/
def connectionStylesSpec : List String → String
  | [] => ""
  | [c] => "connection-" ++ c
  | c :: d :: rest => "connection-" ++ c ++ " " ++ connectionStylesSpec (d :: rest)

/-- C1: for every disabled input: with focusable-when-disabled the output
carries `aria-disabled` and no native `disabled` attribute for every
rendering form; without focusable-when-disabled the `VLink` form emits
neither attribute, while the native `button` form emits the native
`disabled` attribute and no `aria-disabled`. -/
theorem C1_disabled_focusable_attributes (asForm : ButtonForm) :
    (ariaDisabled true true = some true ∧ disabledAttribute asForm true true = none)
    ∧ (ariaDisabled true false = none ∧ disabledAttribute ButtonForm.VLink true false = none)
    ∧ (disabledAttribute ButtonForm.button true false = some true
        ∧ ariaDisabled true false = none) := by
  cases asForm <;> exact ⟨⟨rfl, rfl⟩, ⟨rfl, rfl⟩, rfl, rfl⟩

/-- C2: the control is active exactly when the pressed prop is `true`, or
the ambient `aria-pressed` attribute is truthy, or the ambient
`aria-expanded` attribute is truthy; when active and the variant is one of
`bordered-white`, `bordered-tx`, `transparent-dark` the variant class is
the variant with `"-pressed"` appended; when not active, or for any
variant outside that subset (including `"plain--avoid"`), the variant
class is the variant unchanged. -/
theorem C2_active_state_and_variant_class (pressed : Option Bool)
    (ariaPressedAttr ariaExpandedAttr : Bool) (variant : String) :
    (isActive pressed ariaPressedAttr ariaExpandedAttr = true ↔
      (pressed = some true ∨ ariaPressedAttr = true ∨ ariaExpandedAttr = true))
    ∧ (isActive pressed ariaPressedAttr ariaExpandedAttr = true →
        variant ∈ (["bordered-white", "bordered-tx", "transparent-dark"] : List String) →
        variantClass variant pressed ariaPressedAttr ariaExpandedAttr = variant ++ "-pressed")
    ∧ (isActive pressed ariaPressedAttr ariaExpandedAttr = false →
        variantClass variant pressed ariaPressedAttr ariaExpandedAttr = variant)
    ∧ (variant ∉ (["bordered-white", "bordered-tx", "transparent-dark"] : List String) →
        variantClass variant pressed ariaPressedAttr ariaExpandedAttr = variant)
    ∧ variantClass "plain--avoid" pressed ariaPressedAttr ariaExpandedAttr
        = "plain--avoid" := by
  refine ⟨?_, ?_, ?_, ?_, ?_⟩
  · cases pressed with
    | none => simp [isActive, truthyOptBool]
    | some b => cases b <;> simp [isActive, truthyOptBool]
  · intro h hm
    simp [variantClass, h, List.elem_iff, hm]
  · intro h
    simp [variantClass, h]
  · intro hm
    simp [variantClass, List.elem_iff, hm]
  · simp [variantClass]

/-- Witness for C2: at concrete inputs, an active `bordered-white` control
resolves to the pressed variant class and an active `plain--avoid` control
is left unchanged. -/
theorem C2_active_state_and_variant_class_witness :
    variantClass "bordered-white" (some true) false false = "bordered-white" ++ "-pressed"
    ∧ variantClass "plain--avoid" (some true) false false = "plain--avoid" :=
  ⟨(C2_active_state_and_variant_class (some true) false false "bordered-white").2.1
      (by decide) (by decide),
    (C2_active_state_and_variant_class (some true) false false "plain--avoid").2.2.2.2⟩

/-- C3: the Sensitivity Gate's back action issues exactly one analytics
emission, the `GO_BACK_FROM_SENSITIVE_RESULT` event whose payload holds
the content id and the comma-joined sensitivity reasons; the back button's
navigation target is the recorded return-to-search path, or `"/"` when
none is recorded. -/
theorem C3_back_action_effects (id : String) (sensitivity : List String)
    (path : String) (hpath : path ≠ "") :
    (handleBack id sensitivity).countP WallEffect.isAnalytics = 1
    ∧ handleBack id sensitivity
        = [WallEffect.sendCustomEvent "GO_BACK_FROM_SENSITIVE_RESULT"
            { id := id, sensitivities := jsJoin "," sensitivity }]
    ∧ backButtonHref (some path) = path
    ∧ backButtonHref none = "/" := by
  refine ⟨rfl, rfl, ?_, rfl⟩
  simp [backButtonHref, jsOrDefault, hpath]

/-- Witness for C3: concrete id, reasons and recorded path evaluate to the
concrete event payload and navigation target. -/
theorem C3_back_action_effects_witness :
    handleBack "abc" ["user_reported_sensitive", "sensitive_text"]
      = [WallEffect.sendCustomEvent "GO_BACK_FROM_SENSITIVE_RESULT"
          { id := "abc", sensitivities := "user_reported_sensitive,sensitive_text" }]
    ∧ backButtonHref (some "/search?q=cat") = "/search?q=cat"
    ∧ backButtonHref none = "/" := by
  have h := C3_back_action_effects "abc" ["user_reported_sensitive", "sensitive_text"]
    "/search?q=cat" (by decide)
  exact ⟨h.2.1.trans (by rfl), h.2.2.1, h.2.2.2⟩

/-- C4: the Sensitivity Gate's show action raises exactly one `reveal`
signal, which carries no payload, and issues no analytics emission (and no
navigation: the effect list contains nothing but the signal). -/
theorem C4_show_action_effects :
    handleShow = [WallEffect.reveal]
    ∧ handleShow.length = 1
    ∧ (∀ name payload, WallEffect.sendCustomEvent name payload ∉ handleShow) := by
  refine ⟨rfl, rfl, fun name payload h => ?_⟩
  simp [handleShow] at h

/-- C5: the emitted `type` attribute equals the configured type prop when
the rendering form is the native `button`, and is absent for the `VLink`
link alias and the raw hyperlink `a`. -/
theorem C5_type_attribute (type : String) :
    typeAttribute ButtonForm.button type = some type
    ∧ typeAttribute ButtonForm.VLink type = none
    ∧ typeAttribute ButtonForm.a type = none :=
  ⟨rfl, rfl, rfl⟩

/-- C6: a watcher invocation warns exactly once when the rendering form is
`a` or `NuxtLink` and the ambient href differs from the skip-to-content
fragment target; it warns never when the href equals that fragment or the
form is `button` or `VLink`; and over any trace of invocations (the
initial render plus one invocation per change of the form) the number of
warnings equals the number of invocations satisfying that condition. -/
theorem C6_watch_warning (skipToContentTargetId : String) (asForm : ButtonForm)
    (href : Option String) :
    ((asForm = ButtonForm.a ∨ asForm = ButtonForm.NuxtLink) →
        href ≠ some ("#" ++ skipToContentTargetId) →
        watchAsCallback skipToContentTargetId asForm href = [warnMessage asForm])
    ∧ (href = some ("#" ++ skipToContentTargetId) →
        watchAsCallback skipToContentTargetId asForm href = [])
    ∧ ((asForm = ButtonForm.button ∨ asForm = ButtonForm.VLink) →
        watchAsCallback skipToContentTargetId asForm href = [])
    ∧ (∀ invocations : List (ButtonForm × Option String),
        (watchAsTrace skipToContentTargetId invocations).length
          = invocations.countP (watchWarnCond skipToContentTargetId)) := by
  refine ⟨?_, ?_, ?_, ?_⟩
  · intro hform hhref
    rcases hform with h | h <;> subst h <;> simp [watchAsCallback, hhref]
  · intro h
    subst h
    simp [watchAsCallback]
  · intro hform
    rcases hform with h | h <;> subst h <;> simp [watchAsCallback]
  · intro invs
    induction invs with
    | nil => rfl
    | cons p rest ih =>
      rw [List.countP_cons]
      show ((watchAsCallback skipToContentTargetId p.1 p.2 :: rest.map _).flatten).length = _
      rw [List.flatten_cons, List.length_append]
      have hr : (rest.map (fun q => watchAsCallback skipToContentTargetId q.1 q.2)).flatten.length
          = (watchAsTrace skipToContentTargetId rest).length := rfl
      rw [hr, ih]
      unfold watchAsCallback watchWarnCond
      cases hc : ([ButtonForm.a, ButtonForm.NuxtLink].contains p.1
          && p.2 != some ("#" ++ skipToContentTargetId)) <;>
        simp [hc, Nat.add_comm]

/-- Witness for C6: with target id `"content"`, an `a` form with href
`"/about"` warns once, and the same form with href `"#content"` does not
warn. -/
theorem C6_watch_warning_witness :
    watchAsCallback "content" ButtonForm.a (some "/about") = [warnMessage ButtonForm.a]
    ∧ watchAsCallback "content" ButtonForm.a (some "#content") = [] :=
  ⟨(C6_watch_warning "content" ButtonForm.a (some "/about")).1 (Or.inl rfl) (by decide),
    (C6_watch_warning "content" ButtonForm.a (some "#content")).2.1 (by decide)⟩

/-- C7: the connection class string is the space-join, in input order, of
the `"connection-" ++ c` token of each connection flag `c` (stated as
equality with the spec-side recursion), and the list
`["start", "bottom"]` yields `"connection-start connection-bottom"`. -/
theorem C7_connection_styles (connections : List String) :
    connectionStyles connections = connectionStylesSpec connections
    ∧ connectionStyles ["start", "bottom"] = "connection-start connection-bottom" := by
  refine ⟨?_, rfl⟩
  induction connections with
  | nil => rfl
  | cons c rest ih =>
    cases rest with
    | nil => rfl
    | cons d rest2 =>
      have step : connectionStyles (c :: d :: rest2)
          = "connection-" ++ c ++ " " ++ connectionStyles (d :: rest2) := rfl
      rw [step, ih]
      rfl

/-- C8: with disabled true and focusable-when-disabled false, the raw
hyperlink form `a` does get the native `disabled` attribute: the silent
suppression applies exactly to the `VLink` form. -/
theorem C8_raw_hyperlink_disabled (asForm : ButtonForm) :
    disabledAttribute ButtonForm.a true false = some true
    ∧ (disabledAttribute asForm true false = none ↔ asForm = ButtonForm.VLink) := by
  refine ⟨rfl, ?_⟩
  cases asForm <;> decide

/-- Witness for C8: the `a` form emits the native disabled attribute and
the `VLink` form suppresses it. -/
theorem C8_raw_hyperlink_disabled_witness :
    disabledAttribute ButtonForm.a true false = some true
    ∧ disabledAttribute ButtonForm.VLink true false = none :=
  ⟨(C8_raw_hyperlink_disabled ButtonForm.a).1,
    (C8_raw_hyperlink_disabled ButtonForm.VLink).2.mpr rfl⟩

/-- C9: for every rendering form and every pair of disabled flags, at most
one of `aria-disabled` and the native `disabled` attribute is emitted. -/
theorem C9_at_most_one_disabled_indicator (asForm : ButtonForm)
    (disabled focusableWhenDisabled : Bool) :
    ariaDisabled disabled focusableWhenDisabled = none
    ∨ disabledAttribute asForm disabled focusableWhenDisabled = none := by
  cases asForm <;> cases disabled <;> cases focusableWhenDisabled <;> decide

/-- C10: for every variant string, the `focus-slim-filled` and
`focus-slim-tx` conditions never hold together, and `"plain--avoid"`
satisfies neither. -/
theorem C10_focus_ring_classes_exclusive (variant : String) :
    (isFocusSlimFilled variant && isFocusSlimTx variant) = false
    ∧ isFocusSlimFilled "plain--avoid" = false
    ∧ isFocusSlimTx "plain--avoid" = false := by
  refine ⟨?_, by decide, by decide⟩
  cases h1 : isFocusSlimFilled variant <;> cases h2 : isFocusSlimTx variant <;> simp_all
  simp [isFocusSlimFilled, jsStartsWith] at h1
  rw [isFocusSlimTx, Bool.or_eq_true, Bool.or_eq_true] at h2
  rcases h2 with (h2 | h2) | h2
  · rw [jsStartsWith, List.isPrefixOf_iff_prefix] at h2
    rcases List.prefix_or_prefix_of_prefix h1 h2 with h | h
    · exact absurd h (by decide)
    · exact absurd h (by decide)
  · rw [jsStartsWith, List.isPrefixOf_iff_prefix] at h2
    rcases List.prefix_or_prefix_of_prefix h1 h2 with h | h
    · exact absurd h (by decide)
    · exact absurd h (by decide)
  · rw [show variant = "plain" from by rwa [beq_iff_eq] at h2] at h1
    exact absurd h1 (by decide)

end Openverse
